import Mathlib

/-
Verification development for the server-side-rendered React Router example:
a shallow embedding of the shared route table (src/shared/routes.js), the
data loader (src/shared/api.js), the view components (src/shared/app.js,
src/shared/navbar.js with the Grid class, src/shared/home.js), and the two
entry points (src/server/index.js and src/browser/index.js as given in the
repository walkthrough), together with theorems about them.
-/

set_option linter.unusedVariables false

namespace SSRApp

/-- A repository owner as consumed by the Grid view (field login). -/
structure Owner where
  login : String
deriving DecidableEq, Repr

/-- A repository record as consumed by the Grid view: name, owner,
stargazers_count and html_url, taken verbatim from the API response. -/
structure Repo where
  name : String
  owner : Owner
  stargazers_count : Nat
  html_url : String
deriving DecidableEq, Repr

/-- The JavaScript values that flow through the data pipeline: undefined,
null, or an array of repository records. -/
inductive JSData where
  | undefined
  | null
  | repoList (rs : List Repo)
deriving DecidableEq, Repr

/-- JavaScript truthiness of a JSData value: undefined and null are falsy,
an array (even the empty one) is truthy. -/
def truthy : JSData → Bool
  | .repoList _ => true
  | _ => false

/-- HTML-like markup produced by rendering: text nodes, and elements with a
tag, attributes and children. -/
inductive Markup where
  | text (s : String)
  | elem (tag : String) (attrs : List (String × String)) (children : List Markup)

/-- JavaScript String.prototype.split with a one-character separator, on the
character list of the string; the result always has at least one group. -/
def jsSplit (sep : Char) : List Char → List (List Char)
  | [] => [[]]
  | c :: cs =>
    if c = sep then [] :: jsSplit sep cs
    else
      match jsSplit sep cs with
      | [] => [[c]]
      | g :: gs => (c :: g) :: gs

theorem jsSplit_ne_nil (sep : Char) (l : List Char) : jsSplit sep l ≠ [] := by
  cases l with
  | nil => simp [jsSplit]
  | cons c cs =>
    simp only [jsSplit]
    by_cases h : c = sep
    · simp [h]
    · simp only [h, if_false]
      cases jsSplit sep cs <;> simp

theorem jsSplit_append_sep (sep : Char) (l : List Char) :
    jsSplit sep (l ++ [sep]) = jsSplit sep l ++ [[]] := by
  induction l with
  | nil => simp [jsSplit]
  | cons c cs ih =>
    by_cases h : c = sep
    · simp [jsSplit, h, ih]
    · cases hc : jsSplit sep cs with
      | nil => exact absurd hc (jsSplit_ne_nil sep cs)
      | cons g gs =>
        simp only [List.cons_append, jsSplit, h, if_false, ih, hc, List.append_eq]

/-- path.split('/').pop(): the last '/'-separated group of a path
(the split result is never empty, so pop always yields a string). -/
def lastSegment (path : String) : String :=
  String.mk ((jsSplit '/' path.data).getLastD [])

theorem lastSegment_append_slash (p : String) : lastSegment (p ++ "/") = "" := by
  have hd : (p ++ "/").data = p.data ++ ['/'] := String.data_append p "/"
  simp [lastSegment, hd, jsSplit_append_sep, List.getLastD_concat]

/-- Characters left unescaped by JavaScript encodeURI: ASCII letters and
digits, the mark characters, the URI reserved characters, and the hash. -/
def encodeURIUnescaped (c : Char) : Bool :=
  c.isAlpha || c.isDigit ||
  ['-', '_', '.', '!', '~', '*', '\'', '(', ')'].contains c ||
  [';', '/', '?', ':', '@', '&', '=', '+', '$', ','].contains c ||
  c = '#'

/-- Uppercase hexadecimal digit character for a value below 16. -/
def hexDigitChar (n : Nat) : Char :=
  if n < 10 then Char.ofNat (48 + n) else Char.ofNat (55 + n)

/-- UTF-8 byte sequence of a character; percent-encoding works on bytes. -/
def utf8Bytes (c : Char) : List Nat :=
  let n := c.toNat
  if n < 128 then [n]
  else if n < 2048 then [192 + n / 64, 128 + n % 64]
  else if n < 65536 then [224 + n / 4096, 128 + n / 64 % 64, 128 + n % 64]
  else [240 + n / 262144, 128 + n / 4096 % 64, 128 + n / 64 % 64, 128 + n % 64]

/-- Percent-encoding of one byte: a percent sign and two hex digits. -/
def percentEncodeByte (b : Nat) : List Char :=
  ['%', hexDigitChar (b / 16), hexDigitChar (b % 16)]

/-- encodeURI on a single character. -/
def encodeURIChar (c : Char) : List Char :=
  if encodeURIUnescaped c then [c] else (utf8Bytes c).flatMap percentEncodeByte

/-- The JavaScript global encodeURI, character by character. -/
def encodeURI (s : String) : String :=
  String.mk (s.data.flatMap encodeURIChar)

theorem encodeURI_append (a b : String) :
    encodeURI (a ++ b) = encodeURI a ++ encodeURI b := by
  simp only [encodeURI, String.data_append, List.flatMap_append]
  rfl

/-- The fixed search endpoint text before the language term in the template
string of api.js fetchPopularRepos. -/
def apiUrlBeforeLang : String :=
  "https://api.github.com/search/repositories?q=stars:>1+language:"

/-- The fixed search endpoint text after the language term in the template
string of api.js fetchPopularRepos. -/
def apiUrlAfterLang : String := "&sort=stars&order=desc&type=Repositories"

/-- The language fetchPopularRepos actually uses: the default parameter
language = 'all' applies exactly when the argument is undefined (none). -/
def languageOf (languageArg : Option String) : String := languageArg.getD "all"

/-- Parsed JSON body of the search response: JSON null, or an object with or
without an items field. -/
inductive JsonValue where
  | jnull
  | jobj (items : Option (List Repo))
deriving DecidableEq, Repr

/-- Environment outcome of the one outbound GET plus body parse: the fetch
rejects, data.json() rejects, or a parsed body is produced. -/
inductive FetchOutcome where
  | transportError
  | parseFailure
  | body (v : JsonValue)
deriving DecidableEq, Repr

/-- JavaScript member access repos.items modelled over parsed bodies:
the field value on an object with items, undefined on one without. -/
def itemsValue : Option (List Repo) → JSData
  | some rs => .repoList rs
  | none => .undefined

/-- The promise chain fetch(encodedURI).then(data => data.json())
.then(repos => repos.items) as a settled value: an error for a transport
failure, a parse failure, or the TypeError of reading items on null. -/
def promiseChain : FetchOutcome → Except String JSData
  | .transportError => .error "FetchError"
  | .parseFailure => .error "SyntaxError"
  | .body .jnull => .error "TypeError"
  | .body (.jobj items) => .ok (itemsValue items)

/-- The observable result of one fetchPopularRepos call: the encoded request
URL, the settled promise, and whether console.warn ran. -/
structure FetchCall where
  encodedURI : String
  result : Except String JSData
  warned : Bool

/-- api.js fetchPopularRepos(language = 'all'): build the encodeURI-encoded
search URL with the language substituted into the template, run the
fetch/json/items chain, and catch any failure by warning and returning null. -/
def fetchPopularRepos (languageArg : Option String) (outcome : FetchOutcome) : FetchCall :=
  let language := languageOf languageArg
  let encodedURI := encodeURI (apiUrlBeforeLang ++ language ++ apiUrlAfterLang)
  match promiseChain outcome with
  | .ok v => ⟨encodedURI, .ok v, false⟩
  | .error _ => ⟨encodedURI, .ok JSData.null, true⟩

theorem fetchPopularRepos_encodedURI (a : Option String) (o : FetchOutcome) :
    (fetchPopularRepos a o).encodedURI
      = encodeURI apiUrlBeforeLang ++ encodeURI (languageOf a) ++ encodeURI apiUrlAfterLang := by
  have h : (fetchPopularRepos a o).encodedURI
      = encodeURI (apiUrlBeforeLang ++ languageOf a ++ apiUrlAfterLang) := by
    unfold fetchPopularRepos
    cases promiseChain o <;> rfl
  rw [h, encodeURI_append, encodeURI_append]

/-- The view components referenced by the route table. -/
inductive ViewComp where
  | home
  | grid
deriving DecidableEq, Repr

/-- routes.js fetchInitialData of the popular route:
(path = '') => fetchPopularRepos(path.split('/').pop()), modelled as the
argument handed on to fetchPopularRepos (pop of the never-empty split
result is always a string, so the argument is always defined). -/
def fetchInitialData (path : Option String) : Option String :=
  some (lastSegment (path.getD ""))

/-- One route descriptor of routes.js: exact is the JS truthiness of the
exact property ('true' on the home route, absent on the popular route);
fetchInitialData computes the argument passed to the data loader, when the
route has one. -/
structure RouteEntry where
  path : String
  exact : Bool
  component : Option ViewComp
  fetchInitialData : Option (Option String → Option String)

/-- The route table of routes.js: the exact home route and the popular
route with its data loader. -/
def routes : List RouteEntry :=
  [ { path := "/", exact := true, component := some .home, fetchInitialData := none },
    { path := "/popular/:id", exact := false, component := some .grid,
      fetchInitialData := some fetchInitialData } ]

/-- The empty JS object the server falls back to when no route matches
(routes.find(...) || instead yields an object with no fields). -/
def emptyRoute : RouteEntry :=
  { path := "", exact := false, component := none, fetchInitialData := none }

/-- One pattern segment of a route path: a literal, or a named parameter. -/
inductive Seg where
  | lit (s : String)
  | param (s : String)
deriving DecidableEq, Repr

/-- Whether a string begins with the given character. -/
def headIs (s : String) (c : Char) : Bool :=
  match s.data with
  | [] => false
  | d :: _ => d = c

/-- The nonempty '/'-separated segments of a string. -/
def segmentsOf (s : String) : List String :=
  ((jsSplit '/' s.data).map String.mk).filter (fun t => t ≠ "")

/-- Pattern segments of a route path; a leading colon marks a parameter. -/
def parsePattern (pat : String) : List Seg :=
  (segmentsOf pat).map fun s =>
    if headIs s ':' then .param (String.mk (s.data.drop 1)) else .lit s

/-- Segment matching of react-router matchPath: literals match equal
segments, a parameter captures one nonempty segment; with the exact flag the
whole location must be consumed, otherwise a match at a segment boundary
suffices. -/
def matchSegs : List Seg → List String → Bool → Option (List (String × String))
  | [], rest, ex => if ex && !rest.isEmpty then none else some []
  | _ :: _, [], _ => none
  | .lit s :: ps, u :: us, ex => if s = u then matchSegs ps us ex else none
  | .param n :: ps, u :: us, ex => (matchSegs ps us ex).map (fun m => (n, u) :: m)

/-- react-router matchPath on a pathname, a pattern and an exact flag: fails
when the pathname does not begin with a slash, and otherwise yields the
captured parameters of the first match. -/
def matchPath (pathname pattern : String) (ex : Bool) : Option (List (String × String)) :=
  if headIs pathname '/' then matchSegs (parsePattern pattern) (segmentsOf pathname) ex
  else none

/-- server index.js: routes.find((route) => matchPath(req.url, route)); the
same first-match scan decides which Route the App Switch renders. -/
def findRoute (loc : String) : Option RouteEntry :=
  routes.find? (fun r => (matchPath loc r.path r.exact).isSome)

/-- server index.js activeRoute: the found route, or the empty object. -/
def activeRoute (loc : String) : RouteEntry := (findRoute loc).getD emptyRoute

/-- The view selected by the App Switch at a location: a route component
(the grid one with its :id parameter), or the NoMatch fallback Route. -/
inductive View where
  | home
  | grid (id : String)
  | noMatch
deriving DecidableEq, Repr

/-- app.js: the Switch renders the first matching Route in route-table
order, else the trailing Route with no path, which renders NoMatch. -/
def appView (loc : String) : View :=
  match findRoute loc with
  | some r =>
    match r.component, matchPath loc r.path r.exact with
    | some .home, _ => .home
    | some .grid, some ps => .grid ((ps.lookup "id").getD "")
    | _, _ => .noMatch
  | none => .noMatch

/-- home.js: the Home view markup. -/
def homeMarkup : Markup := .elem "div" [] [.text "Select a language"]

/-- Modelled from the spec: the not-found view component (the 404 module
imported by app.js is not among the sources); the spec's default not-found
view is modelled as a distinct static element. -/
def noMatchMarkup : Markup := .elem "div" [] [.text "Not Found"]

/-- navbar.js: the fixed language list as (display name, route parameter). -/
def languages : List (String × String) :=
  [("All", "all"), ("JavaScript", "javascript"), ("Go", "golang"),
   ("TypeScript", "typescript"), ("Rust", "rust"), ("Julia", "julia")]

/-- navbar.js NavLink: an anchor to /popular/ and the parameter, carrying
the activeStyle exactly when the current location matches the target
(react-router NavLink default matching, non-exact). -/
def navLinkMarkup (loc : String) (name param : String) : Markup :=
  let target := "/popular/" ++ param
  let active := (matchPath loc target false).isSome
  .elem "li" []
    [.elem "a"
      (("href", target) :: (if active then [("style", "font-weight:bold")] else []))
      [.text name]]

/-- navbar.js Navbar: the unordered list of language links. -/
def navbarMarkup (loc : String) : Markup :=
  .elem "ul" [] (languages.map fun np => navLinkMarkup loc np.1 np.2)

/-- navbar.js Grid state: this.state = (repos, loading). -/
structure GridState where
  repos : JSData
  loading : Bool
deriving DecidableEq, Repr

/-- Grid constructor state: loading = repos ? false : true. -/
def gridInit (repos : JSData) : GridState :=
  { repos := repos, loading := !truthy repos }

/-- One grid list entry: the name linked to html_url, the owner login after
an at sign, and the star count followed by the word stars. -/
def gridEntryMarkup (r : Repo) : Markup :=
  .elem "li" [("style", "margin:30")]
    [.elem "ul" []
      [.elem "li" [] [.elem "a" [("href", r.html_url)] [.text r.name]],
       .elem "li" [] [.text ("@" ++ r.owner.login)],
       .elem "li" [] [.text (toString r.stargazers_count ++ " stars")]]]

/-- Grid Ready markup: one entry per record, in input order. -/
def gridReadyMarkup (rs : List Repo) : Markup :=
  .elem "ul" [("style", "display:flex;flexWrap:wrap")] (rs.map gridEntryMarkup)

/-- navbar.js Grid.render: the LOADING heading while loading === true, else
repos.map over the records, which throws a TypeError when repos is null or
undefined. -/
def gridRender (s : GridState) : Except String Markup :=
  if s.loading then .ok (.elem "h1" [] [.text "LOADING"])
  else
    match s.repos with
    | .repoList rs => .ok (gridReadyMarkup rs)
    | _ => .error "TypeError"

/-- navbar.js Grid.fetchRepos(lang): set loading true and issue exactly one
data loader call for lang; the second component records the issued calls. -/
def gridFetchRepos (s : GridState) (lang : String) : GridState × List String :=
  ({ s with loading := true }, [lang])

/-- Resolution of the fetchRepos promise:
this.setState with the resolved repos and loading false. -/
def gridResolve (s : GridState) (repos : JSData) : GridState :=
  { repos := repos, loading := false }

/-- navbar.js Grid.componentWillReceiveProps: refetch exactly when the :id
route parameter changed, keyed to the new parameter. -/
def gridReceiveProps (s : GridState) (oldId newId : String) : GridState × List String :=
  if newId ≠ oldId then gridFetchRepos s newId else (s, [])

/-- app.js render: a div holding the NavBar and the switched view. -/
def appShell (loc : String) (inner : Markup) : Markup :=
  .elem "div" [] [navbarMarkup loc, inner]

/-- Markup of the switched view; the grid view renders from its constructor
state over the repos value its environment supplies. -/
def viewMarkup (v : View) (gridRepos : JSData) : Except String Markup :=
  match v with
  | .home => .ok homeMarkup
  | .noMatch => .ok noMatchMarkup
  | .grid _ => gridRender (gridInit gridRepos)

/-- First render of the App at a location, with gridRepos the value the Grid
constructor reads there (staticContext.data on the server, the global slot
in the browser). -/
def appMarkup (loc : String) (gridRepos : JSData) : Except String Markup :=
  (viewMarkup (appView loc) gridRepos).map (appShell loc)

/-- Server renderToString of StaticRouter around App. The source passes
location='req.url' — the literal string, not the request url — and
context={{}}, so the Grid would read staticContext.data = undefined. -/
def serverRenderMarkup (data : JSData) : Except String Markup :=
  appMarkup "req.url" JSData.undefined

/-- One server response: the rendered markup, the serialized
window.__INITIAL_DATA__ slot value, and the data loader calls issued
(recorded as the fetchPopularRepos argument of each call). -/
structure ServerResponse where
  markup : Markup
  slot : JSData
  loaderCalls : List (Option String)

/-- server index.js GET handler: find the active route (or the empty
object), run its fetchInitialData or resolve immediately with no data,
render, and send the markup with the serialized data; a rejected promise is
forwarded to the error path by catch(next). -/
def serverHandle (reqPath : String) (outcome : FetchOutcome) : Except String ServerResponse :=
  let ar := activeRoute reqPath
  let fetched : Except String JSData × List (Option String) :=
    match ar.fetchInitialData with
    | some f => ((fetchPopularRepos (f (some reqPath)) outcome).result, [f (some reqPath)])
    | none => (.ok JSData.undefined, [])
  match fetched.1 with
  | .error e => .error e
  | .ok data =>
    match serverRenderMarkup data with
    | .error e => .error e
    | .ok m => .ok { markup := m, slot := data, loaderCalls := fetched.2 }

/-- The browser window state the client code touches: the
window.__INITIAL_DATA__ slot (undefined once deleted or never set) and the
location path. -/
structure Window where
  initialData : JSData
  locationPath : String
deriving DecidableEq, Repr

/-- navbar.js Grid constructor, browser branch:
repos = window.__INITIAL_DATA__ then delete window.__INITIAL_DATA__ —
a read immediately followed by the delete, touching nothing else. -/
def gridConstructorBrowser (w : Window) : GridState × Window :=
  (gridInit w.initialData, { w with initialData := JSData.undefined })

/-- browser index.js hydrate of BrowserRouter around App: the first client
render at the window's location; mounting the Grid runs its constructor,
which consumes the global slot. -/
def clientBoot (path : String) (w : Window) : Except String Markup × Window :=
  match appView path with
  | .grid _ =>
    let sw := gridConstructorBrowser w
    ((gridRender sw.1).map (appShell path), sw.2)
  | v => ((viewMarkup v JSData.undefined).map (appShell path), w)

/-- The switched view element inside a rendered App shell: its tag and,
when its sole child is a text node, that text. -/
def renderedViewProbe : Except String Markup → Option (String × Option String)
  | .ok (.elem _ _ [_, .elem t _ ch]) =>
    some (t, match ch with | [.text s] => some s | _ => none)
  | _ => none

/-- The displayed fields of one grid entry: link target, link text, owner
text and stars text. -/
def entryFields : Markup → Option (String × String × String × String)
  | .elem "li" _
      [.elem "ul" _
        [.elem "li" _ [.elem "a" attrs [.text nameTxt]],
         .elem "li" _ [.text ownerTxt],
         .elem "li" _ [.text starsTxt]]] =>
    some ((attrs.lookup "href").getD "", nameTxt, ownerTxt, starsTxt)
  | _ => none

/-- The supported language filters: the navbar parameters (these include
all), and the empty string. -/
def supportedFilters : List String :=
  (languages.map Prod.snd) ++ [""]

theorem findRoute_eq_none {loc : String}
    (hm : ∀ r ∈ routes, matchPath loc r.path r.exact = none) :
    findRoute loc = none :=
  List.find?_eq_none.mpr fun r hr => by simp [hm r hr]

theorem serverRenderMarkup_eq (d : JSData) :
    serverRenderMarkup d = Except.ok (appShell "req.url" noMatchMarkup) := rfl

/-- C3 counterexample: the claim says the route table holds exactly five
route descriptor entries; the table defined in routes.js has two. -/
theorem c3_routes_not_five : ¬ (routes.length = 5) := by decide

/-- C3 (amended): the route table is a static array, defined once, of
exactly two route descriptor entries. -/
theorem c3_routes_length_two : routes.length = 2 := rfl

/-- C10: fetchInitialData hands the data loader the last '/'-separated
segment of the request path: 'javascript' for /popular/javascript, but the
empty string for any path ending in '/', and in that case the loader's
'all' default is not applied, because the default parameter takes effect
only when the argument is undefined (none), not when it is empty. -/
theorem c10_last_segment_language :
    ∀ p : String,
      fetchInitialData (some "/popular/javascript") = some "javascript" ∧
      fetchInitialData (some (p ++ "/")) = some "" ∧
      languageOf (some "") = "" ∧
      languageOf none = "all" ∧
      languageOf (some "") ≠ languageOf none := by
  intro p
  refine ⟨rfl, ?_, rfl, rfl, by decide⟩
  simp [fetchInitialData, lastSegment_append_slash]

/-- C2 counterexample: the claim asserts the Grid render does not throw
when a data-loader null arrives from a client-side refetch; at the concrete
state reached when the fetchRepos promise resolves null, the render throws
(repos.map on null). -/
theorem c2_refetch_null_throws :
    gridRender (gridResolve (gridFetchRepos (gridInit JSData.null) "rust").1 JSData.null)
      = Except.error "TypeError" := rfl

/-- C2 (amended): when the data loader's null is the mount-time data the
Grid renders its Loading markup and does not throw; but when a client-side
refetch via fetchRepos resolves null, loading is set false and the
subsequent render throws a TypeError. -/
theorem c2_mount_null_renders_loading :
    ∀ (d : JSData) (s : GridState),
      (truthy d = false →
        gridRender (gridInit d) = Except.ok (Markup.elem "h1" [] [Markup.text "LOADING"])) ∧
      gridRender (gridResolve s JSData.null) = Except.error "TypeError" := by
  intro d s
  refine ⟨fun h => ?_, rfl⟩
  simp [gridRender, gridInit, h]

/-- C2 witness: the amended theorem at null mount data. -/
theorem c2_mount_null_witness :
    gridRender (gridInit JSData.null) = Except.ok (Markup.elem "h1" [] [Markup.text "LOADING"]) :=
  (c2_mount_null_renders_loading JSData.null (gridInit JSData.null)).1 rfl

/-- C7: the Grid is a two-state machine over its loading flag: initially
Ready exactly when truthy data was supplied at mount; a changed route
parameter sets Loading and issues exactly one loader call keyed to the new
parameter, while an unchanged one issues none; a resolving call sets Ready. -/
theorem c7_grid_state_machine :
    ∀ (d : JSData) (s : GridState) (oldId newId : String) (res : JSData),
      ((gridInit d).loading = false ↔ truthy d = true) ∧
      (gridInit d).repos = d ∧
      (newId ≠ oldId →
        gridReceiveProps s oldId newId = ({ s with loading := true }, [newId])) ∧
      (newId = oldId → gridReceiveProps s oldId newId = (s, [])) ∧
      gridResolve s res = { repos := res, loading := false } := by
  intro d s oldId newId res
  refine ⟨?_, rfl, fun h => ?_, fun h => ?_, rfl⟩
  · simp [gridInit]
  · simp [gridReceiveProps, gridFetchRepos, h]
  · simp [gridReceiveProps, h]

/-- C7 witness: the navigation step from /popular/javascript to
/popular/rust on a Ready grid, and the no-op step on an unchanged id. -/
theorem c7_grid_witness :
    gridReceiveProps (gridInit (JSData.repoList [])) "javascript" "rust"
      = ({ repos := JSData.repoList [], loading := true }, ["rust"]) ∧
    gridReceiveProps (gridInit (JSData.repoList [])) "rust" "rust"
      = (gridInit (JSData.repoList []), []) :=
  ⟨(c7_grid_state_machine (JSData.repoList []) (gridInit (JSData.repoList []))
      "javascript" "rust" JSData.null).2.2.1 (by decide),
   (c7_grid_state_machine (JSData.repoList []) (gridInit (JSData.repoList []))
      "rust" "rust" JSData.null).2.2.2.1 rfl⟩

/-- C9: in its Ready state the Grid renders exactly one list entry per
record, in input order, each displaying the record's name linked to its
url, the owner login, and the star count. -/
theorem c9_grid_ready_entries :
    ∀ rs : List Repo,
      gridRender { repos := JSData.repoList rs, loading := false }
        = Except.ok (Markup.elem "ul" [("style", "display:flex;flexWrap:wrap")]
            (rs.map gridEntryMarkup)) ∧
      (rs.map gridEntryMarkup).length = rs.length ∧
      (rs.map gridEntryMarkup).map entryFields
        = rs.map (fun r =>
            some (r.html_url, r.name, "@" ++ r.owner.login,
              toString r.stargazers_count ++ " stars")) := by
  intro rs
  refine ⟨rfl, List.length_map rs gridEntryMarkup, ?_⟩
  induction rs with
  | nil => rfl
  | cons r rst ih =>
    simp only [List.map_cons, ih]
    simp [gridEntryMarkup, entryFields]

/-- C5: fetchPopularRepos never rejects: every outcome settles ok — on a
transport failure, a parse failure, or the member access throwing, it warns
and resolves null; on a parsed object body it resolves the items field
without warning. -/
theorem c5_loader_never_rejects :
    ∀ (lang : Option String) (o : FetchOutcome),
      (∃ v, (fetchPopularRepos lang o).result = Except.ok v) ∧
      ((o = .transportError ∨ o = .parseFailure ∨ o = .body .jnull) →
        (fetchPopularRepos lang o).result = Except.ok JSData.null ∧
        (fetchPopularRepos lang o).warned = true) ∧
      (∀ items, o = .body (.jobj items) →
        (fetchPopularRepos lang o).result = Except.ok (itemsValue items) ∧
        (fetchPopularRepos lang o).warned = false) := by
  intro lang o
  cases o with
  | transportError =>
    exact ⟨⟨JSData.null, rfl⟩, fun _ => ⟨rfl, rfl⟩, fun items h => by simp at h⟩
  | parseFailure =>
    exact ⟨⟨JSData.null, rfl⟩, fun _ => ⟨rfl, rfl⟩, fun items h => by simp at h⟩
  | body v =>
    cases v with
    | jnull =>
      exact ⟨⟨JSData.null, rfl⟩, fun _ => ⟨rfl, rfl⟩, fun items h => by simp at h⟩
    | jobj items =>
      refine ⟨⟨itemsValue items, rfl⟩, fun h => ?_, fun items2 h => ?_⟩
      · rcases h with h | h | h <;> simp at h
      · injection h with h2
        injection h2 with h3
        subst h3
        exact ⟨rfl, rfl⟩

/-- C5 witness: a transport failure resolves null, a parsed object body
resolves its items list. -/
theorem c5_loader_witness :
    (fetchPopularRepos none FetchOutcome.transportError).result = Except.ok JSData.null ∧
    (fetchPopularRepos none (FetchOutcome.body (JsonValue.jobj (some [])))).result
      = Except.ok (JSData.repoList []) :=
  ⟨((c5_loader_never_rejects none FetchOutcome.transportError).2.1 (Or.inl rfl)).1,
   ((c5_loader_never_rejects none (FetchOutcome.body (JsonValue.jobj (some [])))).2.2
      (some []) rfl).1⟩

/-- C4: the constructed query string is the encodeURI encoding of the fixed
template with the filter substituted for the language term; every supported
filter (including all and the empty string) is left unchanged by the
encoding, and an absent argument defaults the language term to all. -/
theorem c4_query_encoding :
    ∀ (f : String) (o : FetchOutcome),
      (fetchPopularRepos (some f) o).encodedURI
        = encodeURI apiUrlBeforeLang ++ encodeURI f ++ encodeURI apiUrlAfterLang ∧
      (f ∈ supportedFilters → encodeURI f = f) ∧
      (fetchPopularRepos none o).encodedURI
        = (fetchPopularRepos (some "all") o).encodedURI := by
  intro f o
  refine ⟨fetchPopularRepos_encodedURI (some f) o, fun hf => ?_, by
    rw [fetchPopularRepos_encodedURI, fetchPopularRepos_encodedURI]; rfl⟩
  simp only [supportedFilters, languages, List.map_cons, List.map_nil, List.mem_append,
    List.mem_cons, List.not_mem_nil, or_false, List.mem_singleton] at hf
  rcases hf with (rfl | rfl | rfl | rfl | rfl | rfl) | rfl <;> rfl

/-- C4 witness: the theorem at the javascript filter. -/
theorem c4_query_witness :
    encodeURI "javascript" = "javascript" ∧
    (fetchPopularRepos (some "javascript") FetchOutcome.transportError).encodedURI
      = encodeURI apiUrlBeforeLang ++ encodeURI "javascript" ++ encodeURI apiUrlAfterLang :=
  ⟨(c4_query_encoding "javascript" FetchOutcome.transportError).2.1 (by decide),
   (c4_query_encoding "javascript" FetchOutcome.transportError).1⟩

/-- C8: a request path matching no route descriptor makes the server's
lookup fall back to the sentinel empty descriptor, resolve with no data and
invoke no data loader, and makes the App Switch fall through to NoMatch. -/
theorem c8_unmatched_path :
    ∀ (reqPath : String) (o : FetchOutcome),
      (∀ r ∈ routes, matchPath reqPath r.path r.exact = none) →
      activeRoute reqPath = emptyRoute ∧
      serverHandle reqPath o = Except.ok
        { markup := appShell "req.url" noMatchMarkup, slot := JSData.undefined,
          loaderCalls := [] } ∧
      appView reqPath = View.noMatch := by
  intro reqPath o hm
  have hf : findRoute reqPath = none := findRoute_eq_none hm
  have ha : activeRoute reqPath = emptyRoute := by simp [activeRoute, hf]
  refine ⟨ha, ?_, ?_⟩
  · simp [serverHandle, ha, emptyRoute, serverRenderMarkup_eq]
  · simp [appView, hf]

/-- C8 witness: the theorem at the path /nonexistent. -/
theorem c8_unmatched_witness :
    serverHandle "/nonexistent" FetchOutcome.transportError = Except.ok
      { markup := appShell "req.url" noMatchMarkup, slot := JSData.undefined,
        loaderCalls := [] } ∧
    appView "/nonexistent" = View.noMatch := by
  have hm : ∀ r ∈ routes, matchPath "/nonexistent" r.path r.exact = none := by
    intro r hr
    simp only [routes, List.mem_cons, List.not_mem_nil, or_false] at hr
    rcases hr with rfl | rfl <;> rfl
  have h := c8_unmatched_path "/nonexistent" FetchOutcome.transportError hm
  exact ⟨h.2.1, h.2.2⟩

/-- C6: the Grid constructor reads the global slot into its state and
deletes the slot immediately, changing nothing else in the window; a second
read sees undefined; and after the first client render of any served
response the slot is undefined, so the payload is consumed at most once and
cannot leak into later navigation. -/
theorem c6_slot_consumed_once :
    ∀ (w : Window) (reqPath : String) (o : FetchOutcome) (resp : ServerResponse),
      (gridConstructorBrowser w).1.repos = w.initialData ∧
      (gridConstructorBrowser w).2 = { w with initialData := JSData.undefined } ∧
      (gridConstructorBrowser (gridConstructorBrowser w).2).1.repos = JSData.undefined ∧
      (serverHandle reqPath o = Except.ok resp →
        ((clientBoot reqPath
            { initialData := resp.slot, locationPath := reqPath }).2).initialData
          = JSData.undefined) := by
  intro w reqPath o resp
  refine ⟨rfl, rfl, rfl, fun h => ?_⟩
  cases hf : findRoute reqPath with
  | none =>
    have ha : activeRoute reqPath = emptyRoute := by simp [activeRoute, hf]
    have hv : appView reqPath = View.noMatch := by simp [appView, hf]
    simp only [serverHandle, ha, emptyRoute, serverRenderMarkup_eq] at h
    simp only [Except.ok.injEq] at h
    subst h
    simp [clientBoot, hv]
  | some r =>
    have hf2 : routes.find? (fun e => (matchPath reqPath e.path e.exact).isSome) = some r := hf
    have hmem : r ∈ routes := List.mem_of_find?_eq_some hf2
    have hp : (matchPath reqPath r.path r.exact).isSome = true := by
      have hp0 := List.find?_some hf2
      simpa using hp0
    simp only [routes, List.mem_cons, List.not_mem_nil, or_false] at hmem
    rcases hmem with rfl | rfl
    · have hv : appView reqPath = View.home := by simp [appView, hf]
      have ha : activeRoute reqPath
          = { path := "/", exact := true, component := some .home,
              fetchInitialData := none } := by simp [activeRoute, hf]
      simp only [serverHandle, ha, serverRenderMarkup_eq] at h
      simp only [Except.ok.injEq] at h
      subst h
      simp [clientBoot, hv]
    · obtain ⟨ps, hps⟩ := Option.isSome_iff_exists.mp hp
      have hv : appView reqPath = View.grid ((ps.lookup "id").getD "") := by
        simp [appView, hf, hps]
      simp [clientBoot, hv, gridConstructorBrowser]

/-- C6 witness: a page load of /popular/rust whose fetch failed: the served
null payload is consumed and the slot is undefined afterwards. -/
theorem c6_slot_witness :
    ((clientBoot "/popular/rust"
        { initialData := JSData.null, locationPath := "/popular/rust" }).2).initialData
      = JSData.undefined :=
  (c6_slot_consumed_once { initialData := JSData.repoList [], locationPath := "/" }
      "/popular/rust" FetchOutcome.transportError
      { markup := appShell "req.url" noMatchMarkup, slot := JSData.null,
        loaderCalls := [some "rust"] }).2.2.2 rfl

/-- C1: the server markup is claimed byte-identical to the client's first
render for the same path and data; the two differ already at path / with no
data, because the server passes the literal string req.url as the
StaticRouter location (and an empty context object), so it renders the
NoMatch view where the client's first render shows Home. -/
theorem c1_markup_mismatch :
    (serverHandle "/" (FetchOutcome.body (JsonValue.jobj none))).map ServerResponse.markup
      ≠ (clientBoot "/" { initialData := JSData.undefined, locationPath := "/" }).1 := by
  intro h
  have hp := congrArg renderedViewProbe h
  have h1 : renderedViewProbe
      ((serverHandle "/" (FetchOutcome.body (JsonValue.jobj none))).map ServerResponse.markup)
      = some ("div", some "Not Found") := rfl
  have h2 : renderedViewProbe
      (clientBoot "/" { initialData := JSData.undefined, locationPath := "/" }).1
      = some ("div", some "Select a language") := rfl
  rw [h1, h2] at hp
  exact absurd hp (by decide)

end SSRApp
